import Mathlib

/-!
Verification of the SecureQR multi-signal verdict fusion engine.

The definitions below are a shallow embedding of the JavaScript sources
`backend/src/services/smartAnalyzer.js`, `backend/src/utils/upiValidator.js` and
`backend/src/controllers/urlController.js`.  JavaScript numbers are modelled by
exact rationals; every weight in the source is a small decimal, so no rounding
behaviour is relevant to the claims.  Strings are modelled by Lean strings and
all computations work on their underlying character lists.

The WHATWG `new URL` parser used by Node.js is external to the repository; it is
modelled here for the fragment of its behaviour the sources exercise: scheme
validation, authority/host/port/path/query/fragment splitting, host
lowercasing, and default-port elision for special schemes.  Tab/newline
stripping, percent-decoding, IDNA host mapping, IPv6 bracket hosts and
backslash-as-slash handling for special schemes are not modelled; none of the
concrete inputs used below involve them.
-/

set_option maxRecDepth 100000

namespace SecureQR

/-- Character predicate for the scheme portion of a URL (first char must
additionally be alphabetic). -/
def isSchemeChar (c : Char) : Bool :=
  c.isAlphanum || c == '+' || c == '-' || c == '.'

/-- List-level substring test: `containsSeq pat cs` is true iff `pat` occurs
contiguously inside `cs` (JavaScript `String.prototype.includes`). -/
def containsSeq (pat : List Char) : List Char → Bool
  | [] => pat.isEmpty
  | c :: t => pat.isPrefixOf (c :: t) || containsSeq pat t

/-- Boolean string-contains, matching JavaScript `s.includes(sub)`. -/
def strIncludes (s sub : String) : Bool :=
  containsSeq sub.data s.data

/-- Boolean string starts-with, matching JavaScript `s.startsWith(p)`. -/
def strStarts (p s : String) : Bool :=
  p.data.isPrefixOf s.data

/-- Lowercased character list of a string (JavaScript `s.toLowerCase()`,
ASCII fragment). -/
def lowerData (s : String) : List Char :=
  s.data.map Char.toLower

/-- Split a character list on a separator character; mirrors JavaScript
`String.prototype.split` (so the empty list yields one empty group). -/
def splitOnChar (sep : Char) (cs : List Char) : List (List Char) :=
  cs.foldr
    (fun c acc =>
      match acc with
      | g :: gs => if c == sep then [] :: g :: gs else (c :: g) :: gs
      | [] => [[c]])
    [[]]

/-- Split a character list at the first occurrence of `sep`; the second
component is `none` when `sep` does not occur. -/
def splitFirst (sep : Char) (cs : List Char) : List Char × Option (List Char) :=
  let p := cs.span (fun c => !(c == sep))
  match p.2 with
  | [] => (p.1, none)
  | _ :: t => (p.1, some t)

/-- Numeric value of a list of decimal digit characters. -/
def digitsVal (cs : List Char) : Nat :=
  cs.foldl (fun n c => n * 10 + (c.toNat - 48)) 0

/-- A parsed URL record, with the components the sources read: lowercased
hostname, serialized port (empty when absent or equal to the scheme default),
pathname, search (with leading question mark when non-empty) and hash. -/
structure URLRec where
  scheme : String
  hostname : String
  port : String
  pathname : String
  search : String
  hash : String
  deriving Repr, DecidableEq

/-- The WHATWG special schemes relevant here. -/
def specialSchemes : List String := ["http", "https", "ws", "wss", "ftp", "file"]

/-- Default port of a special scheme (WHATWG URL standard). -/
def defaultPort : String → Option Nat
  | "http" => some 80
  | "https" => some 443
  | "ws" => some 80
  | "wss" => some 443
  | "ftp" => some 21
  | _ => none

/-- Code points that make a host invalid (WHATWG forbidden host code points,
restricted to those that can still occur after authority splitting). -/
def isForbiddenHostChar (c : Char) : Bool :=
  [' ', '<', '>', '[', ']', '^', '|', '\\', '\t', '\n', '\r', '\x00'].contains c

/-- Strip the userinfo part of an authority: the host is whatever follows the
last at-sign, as in the WHATWG authority state. -/
def hostAfterUserinfo (auth : List Char) : List Char :=
  if auth.contains '@' then
    (auth.reverse.takeWhile (fun c => !(c == '@'))).reverse
  else auth

/-- Parse and serialize a port: digits only, at most 65535, elided to the empty
string when it equals the scheme's default port. -/
def parsePort (scheme : String) (portChars : List Char) : Option String :=
  if portChars.isEmpty then some ("")
  else if !(portChars.all Char.isDigit) then none
  else
    let n := digitsVal portChars
    if 65535 < n then none
    else
      match defaultPort scheme with
      | some d => if n = d then some ("") else some (toString n)
      | none => some (toString n)

/-- Parse the authority into (lowercased host, serialized port); special
schemes require a non-empty host. -/
def parseHostPort (scheme : String) (requireHost : Bool) (auth : List Char) :
    Option (String × String) :=
  let hp := hostAfterUserinfo auth
  let sp := splitFirst ':' hp
  if requireHost && sp.1.isEmpty then none
  else if sp.1.any isForbiddenHostChar then none
  else
    let portRes := match sp.2 with
      | none => some ("")
      | some pc => parsePort scheme pc
    match portRes with
    | none => none
    | some port => some (String.mk (sp.1.map Char.toLower), port)

/-- Split the remainder after the authority into (pathname, search, hash);
for special schemes an empty path serializes as a single slash, and an empty
query or fragment serializes `search`/`hash` as the empty string. -/
def parseTail (special : Bool) (rest : List Char) : String × String × String :=
  let sp := rest.span (fun c => !(c == '?') && !(c == '#'))
  let pathname := if sp.1.isEmpty then (if special then "/" else "") else String.mk sp.1
  match sp.2 with
  | [] => (pathname, "", "")
  | '?' :: t =>
    let qp := t.span (fun c => !(c == '#'))
    let search := if qp.1.isEmpty then "" else String.mk ('?' :: qp.1)
    let hash := match qp.2 with
      | [] => ""
      | _ :: h => if h.isEmpty then "" else String.mk ('#' :: h)
    (pathname, search, hash)
  | _ :: h => (pathname, "", if h.isEmpty then "" else String.mk ('#' :: h))

/-- Model of the WHATWG `new URL(s)` constructor used by Node.js, returning
`none` where the constructor would throw.  Covers scheme validation, slash
skipping for special schemes, authority splitting with userinfo, host
lowercasing and validation, port parsing with default-port elision, and
path/query/fragment splitting (opaque paths for non-special schemes). -/
def parseURL (s : String) : Option URLRec :=
  let sp := s.data.span isSchemeChar
  match sp.1, sp.2 with
  | [], _ => none
  | c :: _, ':' :: rest =>
    if !c.isAlpha then none
    else
      let scheme := String.mk (sp.1.map Char.toLower)
      if specialSchemes.contains scheme then
        let r := rest.dropWhile (fun c => c == '/')
        let ap := r.span (fun c => !(c == '/') && !(c == '?') && !(c == '#'))
        match parseHostPort scheme true ap.1 with
        | none => none
        | some hpp =>
          let tl := parseTail true ap.2
          some { scheme := scheme, hostname := hpp.1, port := hpp.2,
                 pathname := tl.1, search := tl.2.1, hash := tl.2.2 }
      else
        match rest with
        | '/' :: '/' :: r =>
          let ap := r.span (fun c => !(c == '/') && !(c == '?') && !(c == '#'))
          match parseHostPort scheme false ap.1 with
          | none => none
          | some hpp =>
            let tl := parseTail false ap.2
            some { scheme := scheme, hostname := hpp.1, port := hpp.2,
                   pathname := tl.1, search := tl.2.1, hash := tl.2.2 }
        | _ =>
          let tl := parseTail false rest
          some { scheme := scheme, hostname := "", port := "",
                 pathname := tl.1, search := tl.2.1, hash := tl.2.2 }
  | _, _ => none

/-- The fixed suspicious-keyword list of `SmartAnalyzer` (smartAnalyzer.js). -/
def suspiciousKeywords : List String :=
  ["phishing", "malware", "virus", "hack", "steal", "password",
   "account", "verify", "urgent", "limited", "offer", "click",
   "winner", "prize", "free", "gift", "bonus", "promotion",
   "suspend", "locked", "confirm", "update", "secure", "bank",
   "paypal", "amazon", "microsoft", "google", "apple", "netflix",
   "crypto", "bitcoin", "wallet", "investment", "trading",
   "signin", "login", "security", "checkpoint", "verification",
   "customer", "support", "service", "help-desk", "validate",
   "restore", "recover", "unusual", "activity", "suspended",
   "action-required", "immediately", "expire", "temporary"]

/-- The fixed shortener-domain list of `SmartAnalyzer` (field
`suspiciousDomains`). -/
def suspiciousDomains : List String :=
  ["bit.ly", "tinyurl.com", "goo.gl", "t.co", "short.link",
   "tiny.cc", "lnkd.in", "rebrand.ly", "ow.ly", "buff.ly",
   "is.gd", "v.gd", "x.co", "po.st", "bc.vc", "cutt.ly"]

/-- The fixed suspicious-TLD list of `SmartAnalyzer`. -/
def suspiciousTLDs : List String :=
  [".tk", ".ml", ".ga", ".cf", ".pw", ".top", ".xyz", ".club",
   ".party", ".work", ".link", ".download", ".faith", ".win",
   ".bid", ".loan", ".racing", ".accountant", ".review", ".cricket",
   ".science", ".date", ".stream", ".trade", ".webcam", ".wang"]

/-- The fixed brand-name list of `SmartAnalyzer`. -/
def brandNames : List String :=
  ["apple", "google", "microsoft", "amazon", "paypal", "netflix",
   "facebook", "instagram", "whatsapp", "twitter", "linkedin",
   "chase", "wellsfargo", "bankofamerica", "citibank", "hsbc",
   "fedex", "dhl", "ups", "usps", "irs", "uscis"]

/-- Literal typosquat patterns of `detectTyposquatting` (the six regexes are
plain substrings). -/
def typoPatterns : List String :=
  ["app1e", "g00gle", "micr0soft", "amaz0n", "paypa1", "netf1ix"]

/-- Character class of the `countSpecialChars` regex. -/
def isSpecialChar (c : Char) : Bool :=
  ['-', '.', '_', '~', ':', '/', '?', '#', '[', ']', '@', '!', '$', '&',
   Char.ofNat 39, '(', ')', '*', '+', ',', ';', '=', '%'].contains c

/-- Embedding of `SmartAnalyzer.hasIPAddress`: the hostname matches the
anchored regex of one-to-three-digit groups separated by dots. -/
def hasIPAddress (url : String) : Bool :=
  match parseURL url with
  | none => false
  | some u =>
    let parts := splitOnChar '.' u.hostname.data
    parts.length == 4 &&
      parts.all (fun p => decide (1 ≤ p.length) && decide (p.length ≤ 3) && p.all Char.isDigit)

/-- Embedding of `SmartAnalyzer.isURLShortener`: substring search of each
shortener domain in the lowercased full URL. -/
def isURLShortener (url : String) : Bool :=
  suspiciousDomains.any (fun d => containsSeq d.data (lowerData url))

/-- Embedding of `SmartAnalyzer.countSuspiciousKeywords`. -/
def countSuspiciousKeywords (url : String) : Nat :=
  (suspiciousKeywords.filter (fun k => containsSeq k.data (lowerData url))).length

/-- Embedding of `SmartAnalyzer.countSpecialChars`. -/
def countSpecialChars (url : String) : Nat :=
  (url.data.filter isSpecialChar).length

/-- Embedding of `SmartAnalyzer.countSubdomains`; JavaScript
`Math.max(0, parts.length - 2)` is truncated natural subtraction. -/
def countSubdomains (url : String) : Nat :=
  match parseURL url with
  | none => 0
  | some u => (splitOnChar '.' u.hostname.data).length - 2

/-- Embedding of `SmartAnalyzer.hasPort`. -/
def hasPort (url : String) : Bool :=
  match parseURL url with
  | none => false
  | some u => !(u.port == "")

/-- Boolean suffix test: `listEnds pat cs` is true iff `cs` ends with `pat`
(JavaScript `String.prototype.endsWith`). -/
def listEnds (pat cs : List Char) : Bool :=
  pat.reverse.isPrefixOf cs.reverse

/-- Embedding of `SmartAnalyzer.hasSuspiciousTLD`: the lowercased full URL
either ends with a listed TLD or contains it followed by a slash. -/
def hasSuspiciousTLD (url : String) : Bool :=
  suspiciousTLDs.any (fun t =>
    listEnds t.data (lowerData url) || containsSeq (t.data ++ ['/']) (lowerData url))

/-- Embedding of `SmartAnalyzer.hasBrandNameImpersonation`: a brand name occurs
in the lowercased URL while the parsed hostname does not end in the brand's
canonical com or net domain; parse failure yields false. -/
def hasBrandNameImpersonation (url : String) : Bool :=
  brandNames.any (fun b =>
    containsSeq b.data (lowerData url) &&
      (match parseURL url with
       | none => false
       | some u =>
         let domain := u.hostname.data.map Char.toLower
         !(listEnds (b ++ ".com").data domain) && !(listEnds (b ++ ".net").data domain)))

/-- Embedding of `SmartAnalyzer.detectTyposquatting`. -/
def detectTyposquatting (url : String) : Bool :=
  match parseURL url with
  | none => false
  | some u =>
    let domain := u.hostname.data.map Char.toLower
    typoPatterns.any (fun p => containsSeq p.data domain)

/-- Embedding of `SmartAnalyzer.calculateDigitRatio'`. -/
def calculateDigitRatio' (url : String) : ℚ :=
  let digitCount := (url.data.filter Char.isDigit).length
  if 0 < url.data.length then (digitCount : ℚ) / (url.data.length : ℚ) else 0

/-- Embedding of `SmartAnalyzer.calculateCharDiversity`: distinct lowercased
characters over total length. -/
def calculateCharDiversity (url : String) : ℚ :=
  let uniqueChars := (lowerData url).eraseDups.length
  if 0 < url.data.length then (uniqueChars : ℚ) / (url.data.length : ℚ) else 0

/-- The feature vector produced by `SmartAnalyzer.extractFeatures`, with the
source's field names.  Counts are naturals, ratios exact rationals. -/
structure Features where
  urlLength : Nat
  hasIP : Bool
  isShortener : Bool
  suspiciousKeywordCount : Nat
  specialCharCount : Nat
  subdomainCount : Nat
  hasPort : Bool
  hasSuspiciousTLD : Bool
  isHTTPS : Bool
  dotCount : Nat
  hyphenCount : Nat
  underscoreCount : Nat
  slashCount : Nat
  questionMarkCount : Nat
  equalCount : Nat
  atCount : Nat
  ampersandCount : Nat
  hasBrandName : Bool
  hasTyposquatting : Bool
  domainLength : Nat
  pathLength : Nat
  queryLength : Nat
  fragmentLength : Nat
  specialCharRatio' : ℚ
  digitRatio' : ℚ
  charDiversity : ℚ
  deriving Repr, DecidableEq

/-- Embedding of `SmartAnalyzer.extractFeatures`.  The domain-derived fields
default to zero when `new URL` throws (the source's try/catch); string-level
fields are always computed from the raw string.  For the empty string the
source's `specialCharCount / urlLength` is NaN; the rational model yields 0,
which no claim depends on. -/
def extractFeatures (url : String) : Features :=
  { urlLength := url.data.length
    hasIP := hasIPAddress url
    isShortener := isURLShortener url
    suspiciousKeywordCount := countSuspiciousKeywords url
    specialCharCount := countSpecialChars url
    subdomainCount := countSubdomains url
    hasPort := hasPort url
    hasSuspiciousTLD := hasSuspiciousTLD url
    isHTTPS := strStarts ("https://") url
    dotCount := url.data.count '.'
    hyphenCount := url.data.count '-'
    underscoreCount := url.data.count '_'
    slashCount := url.data.count '/'
    questionMarkCount := url.data.count '?'
    equalCount := url.data.count '='
    atCount := url.data.count '@'
    ampersandCount := url.data.count '&'
    hasBrandName := hasBrandNameImpersonation url
    hasTyposquatting := detectTyposquatting url
    domainLength := match parseURL url with
      | some u => u.hostname.data.length
      | none => 0
    pathLength := match parseURL url with
      | some u => u.pathname.data.length
      | none => 0
    queryLength := match parseURL url with
      | some u => u.search.data.length
      | none => 0
    fragmentLength := match parseURL url with
      | some u => u.hash.data.length
      | none => 0
    specialCharRatio' := (countSpecialChars url : ℚ) / (url.data.length : ℚ)
    digitRatio' := calculateDigitRatio' url
    charDiversity := calculateCharDiversity url }

/-- Computable minimum on rationals (JavaScript `Math.min`); written with an
explicit comparison so that concrete evaluations reduce in the kernel. -/
def qmin (a b : ℚ) : ℚ := if a ≤ b then a else b

/-- Computable maximum on rationals (JavaScript `Math.max`). -/
def qmax (a b : ℚ) : ℚ := if a ≤ b then b else a

lemma qmin_eq (a b : ℚ) : qmin a b = min a b := by
  unfold qmin
  split_ifs with h
  · exact (min_eq_left h).symm
  · exact (min_eq_right (le_of_not_le h)).symm

lemma qmax_eq (a b : ℚ) : qmax a b = max a b := by
  unfold qmax
  split_ifs with h
  · exact (max_eq_right h).symm
  · exact (max_eq_left (le_of_not_le h)).symm

/-- The additive rule score of `SmartAnalyzer.calculateRiskScore` before the
final clamp, with the source's conditions and weights in source order. -/
def ruleScoreRaw (f : Features) : ℚ :=
  (if f.isHTTPS = false then 0.4 else 0)
  + (if 150 < f.urlLength then 0.3
     else if 80 < f.urlLength then 0.2
     else if f.urlLength < 15 then 0.15 else 0)
  + (if f.hasIP then 0.6 else 0)
  + (if f.isShortener then 0.5 else 0)
  + (if 2 < f.suspiciousKeywordCount then 0.5
     else if 0 < f.suspiciousKeywordCount then 0.3 else 0)
  + (if f.hasBrandName then 0.5 else 0)
  + (if f.hasTyposquatting then 0.4 else 0)
  + (if (0.35 : ℚ) < f.specialCharRatio' then 0.3
     else if (0.2 : ℚ) < f.specialCharRatio' then 0.15 else 0)
  + (if 3 < f.subdomainCount then 0.3
     else if 1 < f.subdomainCount then 0.15 else 0)
  + (if f.hasPort then 0.25 else 0)
  + (if f.hasSuspiciousTLD then 0.5 else 0)
  + (if 5 < f.dotCount then 0.2 else 0)
  + (if 4 < f.hyphenCount then 0.2 else 0)
  + (if 2 < f.underscoreCount then 0.15 else 0)
  + (if (0.85 : ℚ) < f.charDiversity ∨ f.charDiversity < (0.3 : ℚ) then 0.15 else 0)
  + (if (0.35 : ℚ) < f.digitRatio' then 0.15 else 0)
  + (if 50 < f.queryLength then 0.2 else 0)

/-- Embedding of `SmartAnalyzer.calculateRiskScore`: the additive rule score
clamped by `Math.max(0, Math.min(score, 1.0))`. -/
def calculateRiskScore (f : Features) : ℚ :=
  qmax 0 (qmin (ruleScoreRaw f) 1)

/-- The reason fragments pushed by `SmartAnalyzer.calculateRiskScore` while
accumulating the score, in source order (several scoring conditions push no
fragment at all: the lower special-char and subdomain bands, underscores,
character diversity and digit ratio). -/
def riskReasons (f : Features) : List String :=
  (if f.isHTTPS = false then ["Insecure HTTP protocol"] else [])
  ++ (if 150 < f.urlLength then ["Extremely long URL"]
      else if 80 < f.urlLength then ["Long URL"]
      else if f.urlLength < 15 then ["Suspiciously short URL"] else [])
  ++ (if f.hasIP then ["Uses IP address instead of domain"] else [])
  ++ (if f.isShortener then ["URL shortener detected"] else [])
  ++ (if 2 < f.suspiciousKeywordCount then
        ["Contains " ++ toString f.suspiciousKeywordCount ++ " suspicious keywords"]
      else if 0 < f.suspiciousKeywordCount then ["Contains suspicious keywords"] else [])
  ++ (if f.hasBrandName then ["Possible brand impersonation"] else [])
  ++ (if f.hasTyposquatting then ["Possible typosquatting detected"] else [])
  ++ (if (0.35 : ℚ) < f.specialCharRatio' then ["High ratio of special characters"] else [])
  ++ (if 3 < f.subdomainCount then ["Too many subdomains"] else [])
  ++ (if f.hasPort then ["Non-standard port"] else [])
  ++ (if f.hasSuspiciousTLD then ["Suspicious top-level domain"] else [])
  ++ (if 5 < f.dotCount then ["Excessive dots in URL"] else [])
  ++ (if 4 < f.hyphenCount then ["Excessive hyphens"] else [])
  ++ (if 50 < f.queryLength then ["Long query parameters"] else [])

/-- The optional trained weight table (`trained_model.json`); only the
`top_features` pairs are consumed by prediction.  A missing or empty
`top_features` array makes prediction return 0 either way, so a single list
field suffices. -/
structure TrainedModel where
  top_features : List (String × ℚ)
  deriving Repr

/-- Embedding of `SmartAnalyzer.getFeatureValue` (booleans as 0/1, missing
names default to 0). -/
def getFeatureValue (f : Features) : String → ℚ
  | "url_length" => (f.urlLength : ℚ)
  | "has_ip" => if f.hasIP then 1 else 0
  | "is_shortener" => if f.isShortener then 1 else 0
  | "suspicious_keyword_count" => (f.suspiciousKeywordCount : ℚ)
  | "subdomain_count" => (f.subdomainCount : ℚ)
  | "has_port" => if f.hasPort then 1 else 0
  | "is_https" => if f.isHTTPS then 1 else 0
  | "dot_count" => (f.dotCount : ℚ)
  | "hyphen_count" => (f.hyphenCount : ℚ)
  | "special_char_ratio" => f.specialCharRatio'
  | "domain_length" => (f.domainLength : ℚ)
  | "path_length" => (f.pathLength : ℚ)
  | "query_length" => (f.queryLength : ℚ)
  | "char_diversity" => f.charDiversity
  | "digit_ratio" => f.digitRatio'
  | "has_suspicious_tld" => if f.hasSuspiciousTLD then 1 else 0
  | "has_brand_name" => if f.hasBrandName then 1 else 0
  | _ => 0

/-- The per-feature threshold table of `SmartAnalyzer.isHighRiskFeature`
(missing names default to 0). -/
def riskThreshold : String → ℚ
  | "url_length" => 80
  | "has_ip" => 0.5
  | "is_shortener" => 0.5
  | "suspicious_keyword_count" => 1
  | "subdomain_count" => 2
  | "has_port" => 0.5
  | "is_https" => -1
  | "dot_count" => 4
  | "hyphen_count" => 3
  | "special_char_ratio" => 0.25
  | "domain_length" => 30
  | "path_length" => 50
  | "query_length" => 30
  | "char_diversity" => 0.7
  | "digit_ratio" => 0.25
  | "has_suspicious_tld" => 0.5
  | "has_brand_name" => 0.5
  | _ => 0

/-- Embedding of `SmartAnalyzer.isHighRiskFeature`: strictly above the
threshold, except the HTTPS flag which must fall below it. -/
def isHighRiskFeature (featureName : String) (value : ℚ) : Bool :=
  if featureName = "is_https" then decide (value < riskThreshold featureName)
  else decide (riskThreshold featureName < value)

/-- JavaScript `Math.max(...)` over the importances of a non-empty feature
list; the empty case is never reached by the prediction loop. -/
def maxImportance (top : List (String × ℚ)) : ℚ :=
  match top.map Prod.snd with
  | [] => 0
  | x :: xs => xs.foldl qmax x

/-- Embedding of `SmartAnalyzer.predictWithTrainedModel`: for the first twenty
weighted features, add normalized importance times 0.25 whenever the feature
value is high-risk, then clamp above by 1. -/
def predictWithTrainedModel (m : TrainedModel) (f : Features) : ℚ :=
  let top := m.top_features.take 20
  let mi := maxImportance top
  qmin (top.foldl
        (fun score p =>
          if isHighRiskFeature p.1 (getFeatureValue f p.1) then score + p.2 / mi * 0.25
          else score)
        0)
      1

/-- Severity band derived from the risk score in `SmartAnalyzer.analyzeURL`. -/
def sevOf (rs : ℚ) : String :=
  if (0.7 : ℚ) < rs then "high" else if (0.4 : ℚ) < rs then "medium" else "low"

/-- Fragment table of `SmartAnalyzer.generateReason`, in source order; the
last entry is the model fragment added when a trained model is loaded and the
final risk score exceeds 0.4.  Note the two independent long-URL entries. -/
def reasonTable (modelPresent : Bool) (f : Features) (riskScore : ℚ) :
    List (Bool × String) :=
  [(!f.isHTTPS, "Uses insecure HTTP protocol"),
   (f.hasIP, "Uses IP address instead of domain name"),
   (f.isShortener, "Known URL shortener service"),
   (decide (0 < f.suspiciousKeywordCount),
    "Contains " ++ toString f.suspiciousKeywordCount ++ " suspicious keyword(s)"),
   (f.hasBrandName, "Possible brand impersonation detected"),
   (f.hasTyposquatting, "Possible typosquatting (misspelled domain)"),
   (decide (150 < f.urlLength), "Extremely long URL"),
   (decide (80 < f.urlLength), "Unusually long URL"),
   (decide (f.urlLength < 15), "Suspiciously short URL"),
   (decide ((0.35 : ℚ) < f.specialCharRatio'), "High ratio of special characters"),
   (decide (3 < f.subdomainCount), "Too many subdomains"),
   (f.hasPort, "Uses non-standard port"),
   (f.hasSuspiciousTLD, "Suspicious top-level domain"),
   (decide (5 < f.dotCount), "Excessive dots in URL"),
   (decide (4 < f.hyphenCount), "Excessive hyphens in URL"),
   (decide (50 < f.queryLength), "Long query parameters (common in phishing)"),
   (modelPresent && decide ((0.4 : ℚ) < riskScore), "ML model detected suspicious patterns")]

/-- Join reason fragments with a semicolon and a space, as
`reasons.join('; ')` does. -/
def joinSemi : List String → String
  | [] => ""
  | x :: xs => xs.foldl (fun a b => a ++ "; " ++ b) x

/-- Embedding of `SmartAnalyzer.generateReason`: push each table fragment whose
condition holds, then join, or return the fixed no-trigger text. -/
def generateReason (modelPresent : Bool) (f : Features) (riskScore : ℚ) : String :=
  let reasons := (reasonTable modelPresent f riskScore).foldl
    (fun acc p => if p.1 then acc ++ [p.2] else acc) []
  if 0 < reasons.length then joinSemi reasons else "No suspicious patterns detected"

/-- The record returned by `SmartAnalyzer.analyzeURL`. -/
structure AnalysisResult where
  isSuspicious : Bool
  severity : String
  confidence : ℚ
  reason : String
  details : Features
  mlModelUsed : Bool
  riskScore : ℚ
  deriving Repr

/-- Embedding of `SmartAnalyzer.analyzeURL`.  The Boolean `mlThrows` models
whether the JavaScript call `predictWithTrainedModel` raised, which the
source's try/catch swallows, keeping the pure rule score; it is irrelevant
when no model is loaded. -/
def analyzeURLWith (model : Option TrainedModel) (mlThrows : Bool) (url : String) :
    AnalysisResult :=
  let features := extractFeatures url
  let rule := calculateRiskScore features
  let riskScore :=
    match model with
    | none => rule
    | some m => if mlThrows then rule else rule * 0.3 + predictWithTrainedModel m features * 0.7
  { isSuspicious := decide ((0.4 : ℚ) < riskScore)
    severity := sevOf riskScore
    confidence := qmin (riskScore + 0.15) 1
    reason := generateReason model.isSome features riskScore
    details := features
    mlModelUsed := model.isSome
    riskScore := riskScore }

/-- `analyzeURL` on the non-throwing path (the usual case). -/
def analyzeURL (model : Option TrainedModel) (url : String) : AnalysisResult :=
  analyzeURLWith model false url

/-- Replace plus signs by spaces, the `URLSearchParams` value decoding step
relevant here (percent-decoding is not modelled; no concrete input uses it). -/
def plusDecode (cs : List Char) : List Char :=
  cs.map (fun c => if c == '+' then ' ' else c)

/-- Model of `new URLSearchParams(search)`: strip a leading question mark,
split on ampersands, drop empty pieces, split each piece at its first equals
sign. -/
def parseParams (search : String) : List (String × String) :=
  let cs := match search.data with
    | '?' :: t => t
    | l => l
  ((splitOnChar '&' cs).filter (fun p => !p.isEmpty)).map (fun p =>
    let nv := splitFirst '=' p
    (String.mk (plusDecode nv.1), String.mk (plusDecode (nv.2.getD []))))

/-- `params.get(name)`: first value for the name, or none. -/
def getParam (ps : List (String × String)) (name : String) : Option String :=
  (ps.find? (fun p => p.1 == name)).map Prod.snd

/-- JavaScript falsiness of `params.get(name)`: absent or empty. -/
def paramMissing (ps : List (String × String)) (name : String) : Bool :=
  match getParam ps name with
  | none => true
  | some v => v == ""

/-- Embedding of `UPIValidator.isValidVPA`: the anchored regex
local-part at handle, with the restricted character set of each side. -/
def isValidVPA (vpa : String) : Bool :=
  match splitOnChar '@' vpa.data with
  | [l, r] =>
    !l.isEmpty && !r.isEmpty
      && l.all (fun c => c.isAlphanum || c == '.' || c == '_' || c == '-')
      && r.all (fun c => c.isAlphanum || c == '.' || c == '-')
  | _ => false

/-- Search for `a` and then, after its first occurrence, for `b`; this is the
matching condition of the regexes of shape `a.*b` used on payee names. -/
def containsThen (cs a b : List Char) : Bool :=
  match cs with
  | [] => a.isEmpty && containsSeq b []
  | c :: t => if a.isPrefixOf (c :: t) then containsSeq b ((c :: t).drop a.length)
              else containsThen t a b

/-- Embedding of `UPIValidator.hasSuspiciousPatterns` (all regexes are
case-insensitive substrings, two with an any-gap in the middle). -/
def hasSuspiciousPatterns (text : String) : Bool :=
  let l := text.data.map Char.toLower
  containsSeq ("phishing").data l || containsSeq ("fake").data l || containsSeq ("scam").data l
    || containsThen l ("urgent").data ("payment").data
    || containsThen l ("verify").data ("account").data
    || containsThen l ("suspend").data ("account").data

/-- The parameter fields extracted by `UPIValidator.validateUPI`. -/
structure UPIFields where
  vpa : Option String
  payeeName : Option String
  amount : Option String
  transactionNote : Option String
  merchantCode : Option String
  deriving Repr, DecidableEq

/-- Result of `UPIValidator.validateUPI`; `fields` is `none` exactly on the
catch path, where the source returns only `valid` and `errors`. -/
structure UPIResult where
  valid : Bool
  errors : List String
  fields : Option UPIFields
  deriving Repr, DecidableEq

/-- Embedding of `UPIValidator.validateUPI`: parse the URI, read the query
parameters, report one specific error per missing required parameter, then the
VPA-format and suspicious-payee checks; a parse failure returns the fixed
error object. -/
def validateUPI (upiString : String) : UPIResult :=
  match parseURL upiString with
  | none => { valid := false, errors := ["Invalid UPI URL format"], fields := none }
  | some u =>
    let params := parseParams u.search
    let vpa := getParam params ("pa")
    let payeeName := getParam params ("pn")
    let reqErrors :=
      (if paramMissing params ("pa") then [("Missing required parameter: pa" : String)] else [])
      ++ (if paramMissing params ("pn") then [("Missing required parameter: pn" : String)] else [])
    let vpaErrors := match vpa with
      | some v => if v == "" then [] else if isValidVPA v then [] else [("Invalid VPA format" : String)]
      | none => []
    let payeeErrors := match payeeName with
      | some p => if p == "" then [] else if hasSuspiciousPatterns p then [("Suspicious payee name detected" : String)] else []
      | none => []
    let errs := reqErrors ++ vpaErrors ++ payeeErrors
    { valid := errs.isEmpty
      errors := errs
      fields := some { vpa := vpa, payeeName := payeeName,
                       amount := getParam params ("am"),
                       transactionNote := getParam params ("tn"),
                       merchantCode := getParam params ("mc") } }

/-- Result of the external threat-intel (Google Safe Browsing) lookup. -/
structure SBResult where
  safe : Bool
  threatType : Option String
  deriving Repr, DecidableEq

/-- The tri-state audit checks map of the controller. -/
structure Checks where
  httpsProtocol : Option Bool := none
  safeBrowsing : Option Bool := none
  smartAnalyzer : Option Bool := none
  upiFormat : Option Bool := none
  deriving Repr, DecidableEq

/-- The `analysis` block the controller copies from the analyzer output. -/
structure AnalysisBlock where
  reason : String
  riskScore : ℚ
  mlModelUsed : Bool
  severity : String
  details : Features
  deriving Repr

/-- The assessment object built by `urlController.checkURL`. -/
structure AssessResult where
  status : String
  contentType : Option String
  threatType : Option String
  checks : Checks
  confidence : ℚ
  source : String
  analysis : Option AnalysisBlock := none

/-- The controller's initial result object. -/
def initResult : AssessResult :=
  { status := "safe", contentType := none, threatType := none,
    checks := {}, confidence := 0, source := "analysis" }

/-- The basic protocol check of the controller's url branch (urlController.js
lines 56 to 66). -/
def protocolStep (analyzingURL : String) (r : AssessResult) : AssessResult :=
  if strStarts ("http://") analyzingURL && !(strStarts ("https://") analyzingURL) then
    { r with status := "suspicious", threatType := some ("Insecure HTTP protocol"),
             checks := { r.checks with httpsProtocol := some false },
             confidence := 0.45 }
  else if strStarts ("https://") analyzingURL then
    { r with checks := { r.checks with httpsProtocol := some true } }
  else r

/-- The Safe Browsing step of the url branch (lines 68 to 87); an exception in
the external call is the `Except.error` case and only records the check as
unavailable. -/
def sbStep (sb : Except Unit SBResult) (r : AssessResult) : AssessResult :=
  match sb with
  | Except.ok sbr =>
    if sbr.safe = false then
      { r with status := "malicious",
               threatType := some (sbr.threatType.getD ("Malicious URL detected by Google Safe Browsing")),
               source := "google_safe_browsing",
               checks := { r.checks with safeBrowsing := some false },
               confidence := 0.95 }
    else { r with checks := { r.checks with safeBrowsing := some true } }
  | Except.error _ => { r with checks := { r.checks with safeBrowsing := none } }

/-- The smart-analyzer fusion step of the url branch (lines 89 to 149); an
analyzer exception is the `Except.error` case. -/
def anaStep (ana : Except Unit AnalysisResult) (r : AssessResult) : AssessResult :=
  match ana with
  | Except.error _ => { r with checks := { r.checks with smartAnalyzer := none } }
  | Except.ok a =>
    let r1 := { r with checks := { r.checks with smartAnalyzer := some (!a.isSuspicious) } }
    let r2 :=
      if a.isSuspicious then
        if r1.status = "safe" then
          { r1 with status := if a.severity = "high" then "malicious" else "suspicious",
                    threatType := some a.reason, source := "smart_analyzer",
                    confidence := a.confidence }
        else if r1.status = "suspicious" ∧ a.severity = "high" then
          { r1 with status := "malicious", threatType := some a.reason,
                    source := "smart_analyzer", confidence := a.confidence }
        else
          { r1 with threatType := match r1.threatType with
                      | some t => if !(strIncludes t a.reason) then some (t ++ "; " ++ a.reason) else some t
                      | none => none,
                    confidence := qmax r1.confidence a.confidence }
      else if r1.status = "safe" then { r1 with confidence := a.confidence } else r1
    { r2 with analysis := some { reason := a.reason, riskScore := a.riskScore,
                                 mlModelUsed := a.mlModelUsed, severity := a.severity,
                                 details := a.details } }

/-- The url branch of `urlController.checkURL` (content type `url`): protocol
check, then threat-intel, then analyzer fusion, in the source's order. -/
def urlBranchResult (analyzingURL : String) (sb : Except Unit SBResult)
    (ana : Except Unit AnalysisResult) : AssessResult :=
  anaStep ana (sbStep sb (protocolStep analyzingURL
    { initResult with contentType := some ("url") }))

/-- Well-formedness of an optional trained weight table: importances are
nonnegative and, when features are present, the maximal importance is
positive (a table of all-zero importances would make the JavaScript division
produce NaN rather than a number). -/
def ModelWF : Option TrainedModel → Prop
  | none => True
  | some m =>
    (∀ p ∈ m.top_features.take 20, 0 ≤ p.2) ∧
      (m.top_features ≠ [] → 0 < maxImportance (m.top_features.take 20))

lemma calculateRiskScore_nonneg (f : Features) : 0 ≤ calculateRiskScore f :=
  le_max_left 0 _

lemma calculateRiskScore_le_one (f : Features) : calculateRiskScore f ≤ 1 :=
  max_le zero_le_one (min_le_right _ _)

lemma foldl_ite_add_nonneg {α : Type} (c : α → Bool) (g : α → ℚ) :
    ∀ (l : List α) (acc : ℚ), 0 ≤ acc → (∀ a ∈ l, 0 ≤ g a) →
      0 ≤ l.foldl (fun s a => if c a then s + g a else s) acc := by
  intro l
  induction l with
  | nil => intro acc h _; simpa using h
  | cons x xs ih =>
    intro acc h hg
    simp only [List.foldl_cons]
    apply ih
    · split
      · exact add_nonneg h (hg x (List.mem_cons_self x xs))
      · exact h
    · intro a ha; exact hg a (List.mem_cons_of_mem x ha)

lemma le_foldl_qmax : ∀ (l : List ℚ) (a : ℚ), a ≤ l.foldl qmax a := by
  intro l
  induction l with
  | nil => intro a; simp
  | cons x xs ih =>
    intro a
    refine le_trans ?_ (ih (qmax a x))
    rw [qmax_eq]
    exact le_max_left a x

lemma maxImportance_nonneg (top : List (String × ℚ)) (h : ∀ p ∈ top, 0 ≤ p.2) :
    0 ≤ maxImportance top := by
  cases top with
  | nil => simp [maxImportance]
  | cons p ps =>
    have hp : 0 ≤ p.2 := h p (List.mem_cons_self p ps)
    calc (0 : ℚ) ≤ p.2 := hp
      _ ≤ (ps.map Prod.snd).foldl qmax p.2 := le_foldl_qmax _ _
      _ = maxImportance (p :: ps) := by simp [maxImportance]

lemma predictWithTrainedModel_nonneg (m : TrainedModel) (f : Features)
    (h : ∀ p ∈ m.top_features.take 20, 0 ≤ p.2) :
    0 ≤ predictWithTrainedModel m f := by
  unfold predictWithTrainedModel
  refine le_min ?_ zero_le_one
  refine foldl_ite_add_nonneg _ _ _ _ le_rfl ?_
  intro p hp
  have := h p hp
  have hmi := maxImportance_nonneg _ h
  positivity

lemma predictWithTrainedModel_le_one (m : TrainedModel) (f : Features) :
    predictWithTrainedModel m f ≤ 1 :=
  min_le_right _ _

/-- Claim C1 — for a URL-type input, an unsafe threat-intel result forces the
final status to be malicious, and neither the analyzer fusion step nor the
analyzer-failure path can downgrade it. -/
theorem threat_intel_unsafe_forces_malicious (url : String) (sbr : SBResult)
    (ana : Except Unit AnalysisResult) (h : sbr.safe = false) :
    (urlBranchResult url (Except.ok sbr) ana).status = "malicious" := by
  have hneq1 : ¬ (("malicious" : String) = "safe") := by decide
  have hneq2 : ¬ (("malicious" : String) = "suspicious") := by decide
  have hsb : ∀ r : AssessResult, (sbStep (Except.ok sbr) r).status = "malicious" := by
    intro r; simp [sbStep, h]
  have hana : ∀ (r : AssessResult), r.status = "malicious" →
      (anaStep ana r).status = "malicious" := by
    intro r hr
    cases ana with
    | error e => simpa [anaStep] using hr
    | ok a =>
      simp only [anaStep]
      by_cases hs : a.isSuspicious = true <;>
        simp [hs, hr, hneq1, hneq2]
  exact hana _ (hsb _)

/-- Witness for C1 at a concrete unsafe lookup. -/
theorem threat_intel_unsafe_forces_malicious_witness :
    ({ safe := false, threatType := some ("MALWARE") } : SBResult).safe = false
    ∧ (urlBranchResult ("http://evil.example")
        (Except.ok { safe := false, threatType := some ("MALWARE") })
        (Except.ok (analyzeURL none ("http://evil.example")))).status = "malicious" :=
  ⟨rfl, threat_intel_unsafe_forces_malicious _ _ _ rfl⟩

/-- Claim C2 — for every URL and every well-formed optional weight table, on
both the normal and the prediction-failure path, the risk score and the
confidence stay inside the unit interval. -/
theorem riskScore_confidence_bounds (model : Option TrainedModel) (mlThrows : Bool)
    (url : String) (hm : ModelWF model) :
    0 ≤ (analyzeURLWith model mlThrows url).riskScore
    ∧ (analyzeURLWith model mlThrows url).riskScore ≤ 1
    ∧ 0 ≤ (analyzeURLWith model mlThrows url).confidence
    ∧ (analyzeURLWith model mlThrows url).confidence ≤ 1 := by
  have hbounds : 0 ≤ (analyzeURLWith model mlThrows url).riskScore
      ∧ (analyzeURLWith model mlThrows url).riskScore ≤ 1 := by
    cases model with
    | none =>
      exact ⟨calculateRiskScore_nonneg _, calculateRiskScore_le_one _⟩
    | some m =>
      cases mlThrows with
      | true => exact ⟨calculateRiskScore_nonneg _, calculateRiskScore_le_one _⟩
      | false =>
        have hr0 := calculateRiskScore_nonneg (extractFeatures url)
        have hr1 := calculateRiskScore_le_one (extractFeatures url)
        have hp0 := predictWithTrainedModel_nonneg m (extractFeatures url) hm.1
        have hp1 := predictWithTrainedModel_le_one m (extractFeatures url)
        constructor
        · show 0 ≤ calculateRiskScore (extractFeatures url) * 0.3
              + predictWithTrainedModel m (extractFeatures url) * 0.7
          nlinarith
        · show calculateRiskScore (extractFeatures url) * 0.3
              + predictWithTrainedModel m (extractFeatures url) * 0.7 ≤ 1
          nlinarith
  refine ⟨hbounds.1, hbounds.2, ?_, min_le_right _ _⟩
  show 0 ≤ min ((analyzeURLWith model mlThrows url).riskScore + 0.15) 1
  have := hbounds.1
  refine le_min (by linarith) zero_le_one

/-- Witness for C2 with no model loaded (the repository ships none). -/
theorem riskScore_confidence_bounds_witness :
    ModelWF none
    ∧ (0 ≤ (analyzeURLWith none false ("https://x.example")).riskScore
        ∧ (analyzeURLWith none false ("https://x.example")).riskScore ≤ 1
        ∧ 0 ≤ (analyzeURLWith none false ("https://x.example")).confidence
        ∧ (analyzeURLWith none false ("https://x.example")).confidence ≤ 1) :=
  ⟨trivial, riskScore_confidence_bounds none false _ trivial⟩

lemma sevOf_spec (rs : ℚ) :
    (sevOf rs = "high" ↔ (0.7 : ℚ) < rs)
    ∧ (sevOf rs = "medium" ↔ ((0.4 : ℚ) < rs ∧ rs ≤ 0.7))
    ∧ (sevOf rs = "low" ↔ rs ≤ (0.4 : ℚ)) := by
  unfold sevOf
  by_cases h1 : (0.7 : ℚ) < rs
  · have h2 : (0.4 : ℚ) < rs := lt_trans (by norm_num) h1
    rw [if_pos h1]
    refine ⟨⟨fun _ => h1, fun _ => rfl⟩,
      ⟨fun hE => absurd hE (by decide), fun hc => absurd hc.2 (not_le.mpr h1)⟩,
      ⟨fun hE => absurd hE (by decide), fun hle => absurd hle (not_le.mpr h2)⟩⟩
  · by_cases h2 : (0.4 : ℚ) < rs
    · rw [if_neg h1, if_pos h2]
      refine ⟨⟨fun hE => absurd hE (by decide), fun hc => absurd hc h1⟩,
        ⟨fun _ => ⟨h2, not_lt.mp h1⟩, fun _ => rfl⟩,
        ⟨fun hE => absurd hE (by decide), fun hle => absurd hle (not_le.mpr h2)⟩⟩
    · rw [if_neg h1, if_neg h2]
      refine ⟨⟨fun hE => absurd hE (by decide), fun hc => absurd hc h1⟩,
        ⟨fun hE => absurd hE (by decide), fun hc => absurd hc.1 h2⟩,
        ⟨fun _ => not_lt.mp h2, fun _ => rfl⟩⟩

/-- Claim C3 — the derived fields of the analyzer output: severity bands at
0.7 and 0.4, the suspicious flag at 0.4, and confidence equal to the risk
score plus 0.15 capped at 1. -/
theorem severity_suspicious_confidence_spec (model : Option TrainedModel)
    (mlThrows : Bool) (url : String) :
    ((analyzeURLWith model mlThrows url).severity = "high"
        ↔ (0.7 : ℚ) < (analyzeURLWith model mlThrows url).riskScore)
    ∧ ((analyzeURLWith model mlThrows url).severity = "medium"
        ↔ ((0.4 : ℚ) < (analyzeURLWith model mlThrows url).riskScore
            ∧ (analyzeURLWith model mlThrows url).riskScore ≤ 0.7))
    ∧ ((analyzeURLWith model mlThrows url).severity = "low"
        ↔ (analyzeURLWith model mlThrows url).riskScore ≤ (0.4 : ℚ))
    ∧ ((analyzeURLWith model mlThrows url).isSuspicious = true
        ↔ (0.4 : ℚ) < (analyzeURLWith model mlThrows url).riskScore)
    ∧ (analyzeURLWith model mlThrows url).confidence
        = min ((analyzeURLWith model mlThrows url).riskScore + 0.15) 1 :=
  ⟨(sevOf_spec _).1, (sevOf_spec _).2.1, (sevOf_spec _).2.2,
    decide_eq_true_iff, rfl⟩

/-- Counterexample to claim C4 — with the threat-intel collaborator reporting
safe and no trained model, the final status for the Scenario-1 input is not
safe: the scorer triggers on the embedded brand keyword and the
special-character ratio. -/
theorem google_url_not_safe :
    (urlBranchResult ("https://google.com") (Except.ok { safe := true, threatType := none })
        (Except.ok (analyzeURL none ("https://google.com")))).status ≠ "safe" := by
  with_unfolding_all decide

/-- Amended claim C4 — for the input https google.com with a safe threat-intel
result, the https check passes but the scorer does trigger (one suspicious
keyword, special-character ratio above the low band), so the final status is
suspicious, not safe. -/
theorem google_url_assessment :
    (urlBranchResult ("https://google.com") (Except.ok { safe := true, threatType := none })
        (Except.ok (analyzeURL none ("https://google.com")))).status = "suspicious"
    ∧ (urlBranchResult ("https://google.com") (Except.ok { safe := true, threatType := none })
        (Except.ok (analyzeURL none ("https://google.com")))).checks.httpsProtocol = some true
    ∧ (extractFeatures ("https://google.com")).suspiciousKeywordCount = 1
    ∧ (analyzeURL none ("https://google.com")).riskScore = 0.45 := by
  refine ⟨?_, ?_, ?_, ?_⟩ <;> with_unfolding_all decide

/-- Counterexample to claim C5 — switching the scheme of this URL from https
to http (the claim's own example of adding a triggering condition) strictly
decreases the risk score: the http variant gains the insecure-protocol weight
(0.4) but loses the non-default-port weight (0.25, port 80 is elided for http)
and the long-URL band weight (0.2, length drops from 81 to 80). -/
theorem http_switch_decreases_riskScore :
    calculateRiskScore (extractFeatures ("http://a:80/" ++ String.mk (List.replicate 68 'b')))
      < calculateRiskScore (extractFeatures ("https://a:80/" ++ String.mk (List.replicate 68 'b'))) := by
  with_unfolding_all decide

/-- Amended claim C5 — monotonicity holds at the feature level: triggering the
insecure-protocol condition with all other features unchanged never decreases
the risk score.  The URL-level scheme switch is not monotone because it also
shifts the length band and default-port elision. -/
theorem riskScore_monotone_in_httpCondition (f : Features) :
    calculateRiskScore f ≤ calculateRiskScore { f with isHTTPS := false } := by
  have h : ruleScoreRaw f ≤ ruleScoreRaw { f with isHTTPS := false } := by
    cases hf : f.isHTTPS <;> simp only [ruleScoreRaw, hf] <;> norm_num
  exact max_le_max le_rfl (min_le_min h le_rfl)

/-- Counterexample to claim C6 — for a 151-character URL the output reason
contains two long-URL fragments although only the single over-150 length
condition of the scorer's rule table triggered; it therefore differs from the
scorer's own triggered fragments joined together. -/
theorem reason_has_untriggered_fragment :
    (analyzeURL none ("https://" ++ String.mk (List.replicate 143 'a'))).reason
        = "Extremely long URL; Unusually long URL"
    ∧ riskReasons (extractFeatures ("https://" ++ String.mk (List.replicate 143 'a')))
        = ["Extremely long URL"] := by
  refine ⟨?_, ?_⟩ <;> with_unfolding_all decide

/-- The fragment list of the reason generator as the amended claim describes
it: the fragments of `generateReason`'s own condition table, in its order.
Modelled from the amended claim for comparison with the source embedding. -/
def specReasonFragments (modelPresent : Bool) (f : Features) (riskScore : ℚ) :
    List String :=
  ((reasonTable modelPresent f riskScore).filter (fun p => p.1)).map (fun p => p.2)

lemma pushFold_eq (l : List (Bool × String)) :
    ∀ acc : List String,
      l.foldl (fun a p => if p.1 then a ++ [p.2] else a) acc
        = acc ++ (l.filter (fun p => p.1)).map (fun p => p.2) := by
  induction l with
  | nil => intro acc; simp
  | cons x xs ih =>
    intro acc
    simp only [List.foldl_cons, List.filter_cons]
    cases hx : x.1 with
    | false => simp [hx, ih]
    | true => simp [hx, ih, List.append_assoc]

/-- Amended claim C6 — the reason is recomputed by a second pass whose
condition set differs from the scorer's rule table: it is exactly the
fragments of `generateReason`'s own table (which emits both long-URL fragments
above 150, omits fragments for several score-contributing conditions, and adds
a model fragment when a model is loaded and the risk score exceeds 0.4), in
table order joined by semicolons, and the literal no-trigger text when that
table yields no fragment. -/
theorem reason_follows_generateReason_table (model : Option TrainedModel)
    (mlThrows : Bool) (url : String) :
    (analyzeURLWith model mlThrows url).reason
      = (if specReasonFragments model.isSome (extractFeatures url)
              (analyzeURLWith model mlThrows url).riskScore = []
         then "No suspicious patterns detected"
         else joinSemi (specReasonFragments model.isSome (extractFeatures url)
              (analyzeURLWith model mlThrows url).riskScore)) := by
  show generateReason model.isSome (extractFeatures url)
        (analyzeURLWith model mlThrows url).riskScore = _
  unfold generateReason specReasonFragments
  rw [pushFold_eq, List.nil_append]
  cases ((reasonTable model.isSome (extractFeatures url)
      (analyzeURLWith model mlThrows url).riskScore).filter (fun p => p.1)).map
      (fun p => p.2) with
  | nil => simp
  | cons x xs => simp

/-- Counterexample to claim C7 — with a model loaded but prediction throwing,
no blending occurs (the risk score equals the pure rule score, which differs
from the blended value), yet the output's ml-used flag is still true. -/
theorem mlUsed_true_without_blending :
    (analyzeURLWith (some ⟨[("has_ip", 1)]⟩) true ("http://1.2.3.4")).mlModelUsed = true
    ∧ (analyzeURLWith (some ⟨[("has_ip", 1)]⟩) true ("http://1.2.3.4")).riskScore
        = calculateRiskScore (extractFeatures ("http://1.2.3.4"))
    ∧ (analyzeURLWith (some ⟨[("has_ip", 1)]⟩) false ("http://1.2.3.4")).riskScore
        ≠ calculateRiskScore (extractFeatures ("http://1.2.3.4")) := by
  refine ⟨rfl, rfl, by with_unfolding_all decide⟩

/-- Amended claim C7 — with a weight table present and prediction succeeding
the final risk score is the 30/70 blend; with no table, or when prediction
throws, it is the pure rule score (a recoverable degradation, never a request
failure); and the ml-used flag reports whether a model is loaded, which
coincides with whether blending occurred except on the throwing path. -/
theorem riskScore_blend_and_fallback (m : TrainedModel) (model : Option TrainedModel)
    (mlThrows : Bool) (url : String) :
    (analyzeURLWith (some m) false url).riskScore
        = calculateRiskScore (extractFeatures url) * 0.3
          + predictWithTrainedModel m (extractFeatures url) * 0.7
    ∧ (analyzeURLWith (some m) true url).riskScore
        = calculateRiskScore (extractFeatures url)
    ∧ (analyzeURLWith none mlThrows url).riskScore
        = calculateRiskScore (extractFeatures url)
    ∧ (analyzeURLWith model mlThrows url).mlModelUsed = model.isSome :=
  ⟨rfl, rfl, rfl, rfl⟩

/-- The query parameters the UPI validator reads for a given input string
(empty when the URI does not parse; unused on that path). -/
def searchParamsOf (s : String) : List (String × String) :=
  match parseURL s with
  | some u => parseParams u.search
  | none => []

/-- Claim C8 — a URI that fails to parse yields exactly the fixed
invalid-format object with no further fields, and a parsed URI missing a
required parameter is invalid with the specific per-parameter error
message. -/
theorem validateUPI_missing_params_and_parse_failure (s : String) :
    (parseURL s = none →
      validateUPI s = { valid := false, errors := ["Invalid UPI URL format"], fields := none })
    ∧ ((parseURL s).isSome = true → paramMissing (searchParamsOf s) ("pa") = true →
        (validateUPI s).valid = false
          ∧ "Missing required parameter: pa" ∈ (validateUPI s).errors)
    ∧ ((parseURL s).isSome = true → paramMissing (searchParamsOf s) ("pn") = true →
        (validateUPI s).valid = false
          ∧ "Missing required parameter: pn" ∈ (validateUPI s).errors) := by
  refine ⟨fun h => by simp [validateUPI, h], ?_, ?_⟩
  · intro hsome hmiss
    match hp : parseURL s with
    | none => rw [hp] at hsome; simp at hsome
    | some u =>
      simp only [searchParamsOf, hp] at hmiss
      simp [validateUPI, hp, hmiss]
  · intro hsome hmiss
    match hp : parseURL s with
    | none => rw [hp] at hsome; simp at hsome
    | some u =>
      simp only [searchParamsOf, hp] at hmiss
      by_cases hpa : paramMissing (parseParams u.search) ("pa") = true
      · simp [validateUPI, hp, hmiss, hpa]
      · simp [validateUPI, hp, hmiss, hpa]

/-- Witness for C8: a non-URI input, a UPI URI missing `pa`, and one missing
`pn`. -/
theorem validateUPI_missing_params_witness :
    validateUPI ("not a uri")
        = { valid := false, errors := ["Invalid UPI URL format"], fields := none }
    ∧ ((validateUPI ("upi://pay?pn=Store")).valid = false
        ∧ "Missing required parameter: pa" ∈ (validateUPI ("upi://pay?pn=Store")).errors)
    ∧ ((validateUPI ("upi://pay?pa=a@b")).valid = false
        ∧ "Missing required parameter: pn" ∈ (validateUPI ("upi://pay?pa=a@b")).errors) := by
  have h1 : parseURL ("not a uri") = none := by with_unfolding_all rfl
  have h2 : (parseURL ("upi://pay?pn=Store")).isSome = true := by with_unfolding_all rfl
  have h3 : paramMissing (searchParamsOf ("upi://pay?pn=Store")) ("pa") = true := by
    with_unfolding_all rfl
  have h4 : (parseURL ("upi://pay?pa=a@b")).isSome = true := by with_unfolding_all rfl
  have h5 : paramMissing (searchParamsOf ("upi://pay?pa=a@b")) ("pn") = true := by
    with_unfolding_all rfl
  exact ⟨(validateUPI_missing_params_and_parse_failure ("not a uri")).1 h1,
    (validateUPI_missing_params_and_parse_failure ("upi://pay?pn=Store")).2.1 h2 h3,
    (validateUPI_missing_params_and_parse_failure ("upi://pay?pa=a@b")).2.2 h4 h5⟩

/-- Claim C9 — feature extraction is total (it is a function); when the URL
fails to parse, every domain-derived feature is zero or false, while the
string-level features are still those computed from the raw string. -/
theorem extractFeatures_defaults_on_parse_failure (url : String)
    (h : parseURL url = none) :
    (extractFeatures url).domainLength = 0
    ∧ (extractFeatures url).pathLength = 0
    ∧ (extractFeatures url).queryLength = 0
    ∧ (extractFeatures url).fragmentLength = 0
    ∧ (extractFeatures url).subdomainCount = 0
    ∧ (extractFeatures url).hasIP = false
    ∧ (extractFeatures url).hasPort = false
    ∧ (extractFeatures url).urlLength = url.data.length
    ∧ (extractFeatures url).dotCount = url.data.count '.'
    ∧ (extractFeatures url).specialCharCount = (url.data.filter isSpecialChar).length
    ∧ (extractFeatures url).digitRatio' = calculateDigitRatio' url
    ∧ (extractFeatures url).charDiversity = calculateCharDiversity url := by
  refine ⟨?_, ?_, ?_, ?_, ?_, ?_, ?_, rfl, rfl, rfl, rfl, rfl⟩ <;>
    simp [extractFeatures, countSubdomains, hasIPAddress, hasPort, h]

/-- Witness for C9 at a concrete unparseable input. -/
theorem extractFeatures_defaults_witness :
    parseURL ("not a uri") = none
    ∧ (extractFeatures ("not a uri")).domainLength = 0
    ∧ (extractFeatures ("not a uri")).hasIP = false
    ∧ (extractFeatures ("not a uri")).hasPort = false := by
  have h : parseURL ("not a uri") = none := by with_unfolding_all rfl
  exact ⟨h, (extractFeatures_defaults_on_parse_failure ("not a uri") h).1,
    (extractFeatures_defaults_on_parse_failure ("not a uri") h).2.2.2.2.2.1,
    (extractFeatures_defaults_on_parse_failure ("not a uri") h).2.2.2.2.2.2.1⟩

/-- Counterexample to claim C10 — the shortener flag is set for a URL whose
host is not in the shortener list, because the source searches the whole URL
string (here the listed domain appears only in the path). -/
theorem shortener_flag_without_host_membership :
    isURLShortener ("https://example.com/bit.ly") = true
    ∧ (parseURL ("https://example.com/bit.ly")).map URLRec.hostname = some ("example.com")
    ∧ ¬ ("example.com" ∈ suspiciousDomains) := by
  refine ⟨by decide, by decide, by decide⟩

/-- Amended claim C10 — both flags are checks on the whole lowercased URL
string, not on the host: the shortener flag holds iff some listed shortener
domain occurs as a substring anywhere in the URL, and the suspicious-TLD flag
holds iff the whole URL ends with a listed TLD or contains a listed TLD
followed by a slash. -/
theorem shortener_tld_flags_are_substring_checks (url : String) :
    (isURLShortener url = true
      ↔ ∃ d ∈ suspiciousDomains, containsSeq d.data (lowerData url) = true)
    ∧ (hasSuspiciousTLD url = true
      ↔ ∃ t ∈ suspiciousTLDs,
          (listEnds t.data (lowerData url) = true
            ∨ containsSeq (t.data ++ ['/']) (lowerData url) = true)) := by
  constructor <;> simp [isURLShortener, hasSuspiciousTLD, List.any_eq_true]

end SecureQR
